import Mathlib

/-!
Shallow embedding of trin-core/src/jsonrpc/types.rs: the JSON-RPC
parameter model (Params), the request envelope (JsonRequest) with its
serde-derived deserialization and validator-derived validation, and the
NodesParams decoder (the TryFrom instance for NodesParams).
-/

set_option autoImplicit false

namespace Trin

/-- JSON numbers as represented by serde_json: an unsigned integer
(PosInt, fits u64), a negative integer (NegInt), or a floating-point
number (Float, abstracted as a rational here; the only fact the code
under study uses about floats is that they are not unsigned integers). -/
inductive Number where
  | posInt (n : Nat)
  | negInt (i : Int)
  | float (q : Rat)

/-- Generic JSON values, mirroring serde_json Value. Objects are ordered
association lists; values deserialized from JSON text have unique keys,
and all accesses below go through first-match lookup. -/
inductive Value where
  | null
  | bool (b : Bool)
  | num (n : Number)
  | str (s : String)
  | arr (vs : List Value)
  | obj (fields : List (String × Value))

/-- Key access, mirroring serde_json Value get with a string index: key
lookup on objects, None on every other shape. -/
def Value.get (v : Value) (key : String) : Option Value :=
  match v with
  | .obj fields => List.lookup key fields
  | _ => none

/-- Numeric view, mirroring serde_json as_u64: Some exactly on
unsigned-integer numbers; negative integers, floats, and non-numbers give
None. -/
def Value.as_u64 : Value → Option Nat
  | .num (.posInt n) => some n
  | _ => none

/-- Array view, mirroring serde_json as_array. -/
def Value.as_array : Value → Option (List Value)
  | .arr vs => some vs
  | _ => none

/-- The enum Params from jsonrpc/types.rs: no parameters, an array of
values, or a map of values. -/
inductive Params where
  | none
  | array (vs : List Value)
  | map (fields : List (String × Value))

/-- The untagged serde deserialization of Params from a JSON value: the
unit variant None matches null, Array matches a JSON array, Map matches a
JSON object; every other shape is rejected. -/
def Params.deserialize : Value → Except String Params
  | .null => .ok .none
  | .arr vs => .ok (.array vs)
  | .obj fields => .ok (.map fields)
  | _ => .error "data did not match any variant of untagged enum Params"

/-- Conversion of Params back to a generic value (the From impl for
Value in jsonrpc/types.rs). -/
def Params.toValue : Params → Value
  | .array vs => .arr vs
  | .map m => .obj m
  | .none => .null

/-- The function default_params, the serde default for the params field
of JsonRequest. -/
def default_params : Params := Params.none

/-- The struct JsonRequest, fields in source order. The id field is a
u32; deserialization enforces the 32-bit bound. -/
structure JsonRequest where
  jsonrpc : String
  params : Params
  method : String
  id : Nat

/-- The constant u32 MAX. -/
def U32_MAX : Nat := 4294967295

/-- serde deserialization of a Rust String field from a JSON value. -/
def deserializeString : Value → Except String String
  | .str s => .ok s
  | _ => .error "invalid type: expected a string"

/-- serde deserialization of a Rust u32 field from a JSON value:
succeeds exactly on unsigned-integer numbers that fit in 32 bits. -/
def deserializeU32 : Value → Except String Nat
  | .num (.posInt n) =>
      if n ≤ U32_MAX then .ok n
      else .error "invalid value: integer out of range for u32"
  | _ => .error "invalid type: expected u32"

/-- Deserialization of the params field as declared on JsonRequest: an
absent key falls back to default_params (the serde default attribute), a
present value goes through the untagged Params deserializer. -/
def deserializeParamsField : Option Value → Except String Params
  | some v => Params.deserialize v
  | Option.none => .ok default_params

/-- Lookup-and-deserialize for a required String field of JsonRequest. -/
def requiredString (fields : List (String × Value)) (name : String) :
    Except String String :=
  match List.lookup name fields with
  | some v => deserializeString v
  | Option.none => Except.error ("missing field " ++ name)

/-- Lookup-and-deserialize for the required u32 id field of JsonRequest. -/
def requiredU32 (fields : List (String × Value)) (name : String) :
    Except String Nat :=
  match List.lookup name fields with
  | some v => deserializeU32 v
  | Option.none => Except.error ("missing field " ++ name)

/-- The serde-derived Deserialize for JsonRequest, applied to a JSON
value. JsonRequest carries no deny_unknown_fields attribute, so the serde
default applies: object entries other than the four named fields are
ignored. The params field defaults to default_params when absent. -/
def parse_envelope : Value → Except String JsonRequest
  | .obj fields =>
    match requiredString fields "jsonrpc" with
    | .error e => .error e
    | .ok jsonrpc =>
      match deserializeParamsField (List.lookup "params" fields) with
      | .error e => .error e
      | .ok params =>
        match requiredString fields "method" with
        | .error e => .error e
        | .ok method =>
          match requiredU32 fields "id" with
          | .error e => .error e
          | .ok id => .ok ⟨jsonrpc, params, method, id⟩
  | _ => .error "invalid type: expected struct JsonRequest"

/-- The validator crate error type, reduced to the code string set by its
new constructor. -/
structure ValidationError where
  code : String

/-- Constructor mirroring ValidationError new. -/
def ValidationError.new (code : String) : ValidationError := ⟨code⟩

/-- The function validate_jsonrpc_version from jsonrpc/types.rs. -/
def validate_jsonrpc_version (jsonrpc : String) : Except ValidationError Unit :=
  if jsonrpc ≠ "2.0" then .error (ValidationError.new "Unsupported jsonrpc version")
  else .ok ()

/-- The derived Validate pass on JsonRequest: exactly one custom rule,
validate_jsonrpc_version, attached to the field jsonrpc; on failure the
error is recorded under the field name "jsonrpc". -/
def JsonRequest.validate (r : JsonRequest) :
    Except (List (String × ValidationError)) Unit :=
  match validate_jsonrpc_version r.jsonrpc with
  | .ok _ => .ok ()
  | .error e => .error [("jsonrpc", e)]

/-- The struct NodesParams. The total field is a u8, kept as a Nat that
the decoder reduces modulo 256 (the Rust cast to u8). The element type of
enrs is a parameter because SszEnr lives outside the source file under
study. -/
structure NodesParams (Enr : Type) where
  total : Nat
  enrs : List Enr

/-- The Rust collect over an iterator of Results into a Result of a Vec:
elements are converted left to right and the first error, if any, is the
overall result. -/
def collectResults {α β : Type} (f : α → Except ValidationError β) :
    List α → Except ValidationError (List β)
  | [] => Except.ok []
  | a :: t =>
    match f a with
    | Except.error e => Except.error e
    | Except.ok b =>
      match collectResults f t with
      | Except.error e => Except.error e
      | Except.ok bs => Except.ok (b :: bs)

/-- The TryFrom instance for NodesParams, parameterized over the external
conversion from a JSON value to SszEnr. The cast of total to u8 truncates
modulo 256 rather than range-checking; collecting the mapped enrs stops
at the first failing element. -/
def NodesParams.tryFrom {Enr : Type}
    (sszEnrTryFrom : Value → Except ValidationError Enr)
    (value : Value) : Except ValidationError (NodesParams Enr) :=
  match value.get "total" with
  | Option.none => Except.error (ValidationError.new "Missing total param")
  | some totalJson =>
    match totalJson.as_u64 with
    | Option.none => Except.error (ValidationError.new "Invalid total param")
    | some total64 =>
      match value.get "enrs" with
      | Option.none => Except.error (ValidationError.new "Missing enrs param")
      | some enrsJson =>
        match enrsJson.as_array with
        | Option.none => Except.error (ValidationError.new "Empty enrs param")
        | some enrsArr =>
          match collectResults sszEnrTryFrom enrsArr with
          | Except.error e => Except.error e
          | Except.ok enrs => Except.ok ⟨total64 % 256, enrs⟩


/-- Helper: collect propagates the first conversion error. -/
theorem collectResults_first_error {α β : Type} (f : α → Except ValidationError β)
    (l₁ : List α) (x : α) (l₂ : List α) (err : ValidationError)
    (h₁ : ∀ y ∈ l₁, ∃ e, f y = Except.ok e) (hx : f x = Except.error err) :
    collectResults f (l₁ ++ x :: l₂) = Except.error err := by
  induction l₁ with
  | nil => simp [collectResults, hx]
  | cons a t ih =>
    obtain ⟨e, he⟩ := h₁ a (List.mem_cons_self a t)
    have hrest := ih fun y hy => h₁ y (List.mem_cons_of_mem a hy)
    simp [collectResults, he, hrest]

/-- Helper: collect succeeds in order when every element converts. -/
theorem collectResults_all_ok {α β : Type} (f : α → Except ValidationError β)
    (vs : List α) (h : ∀ y ∈ vs, ∃ e, f y = Except.ok e) :
    ∃ es, collectResults f vs = Except.ok es
      ∧ List.Forall₂ (fun y e => f y = Except.ok e) vs es := by
  induction vs with
  | nil => exact ⟨[], rfl, List.Forall₂.nil⟩
  | cons a t ih =>
    obtain ⟨e, he⟩ := h a (List.mem_cons_self a t)
    obtain ⟨es, hes, hall⟩ := ih fun y hy => h y (List.mem_cons_of_mem a hy)
    exact ⟨e :: es, by simp [collectResults, he, hes], List.Forall₂.cons he hall⟩

/-- C3: the decoder checks total before enrs and attributes each failure
to its fixed error label, with the empty-enrs label firing on the
non-array shape. -/
theorem decode_nodes_params_error_order {Enr : Type}
    (f : Value → Except ValidationError Enr) (v : Value) :
    (v.get "total" = Option.none →
      NodesParams.tryFrom f v = Except.error (ValidationError.new "Missing total param"))
  ∧ (∀ tv, v.get "total" = some tv → tv.as_u64 = Option.none →
      NodesParams.tryFrom f v = Except.error (ValidationError.new "Invalid total param"))
  ∧ (∀ tv n, v.get "total" = some tv → tv.as_u64 = some n →
      v.get "enrs" = Option.none →
      NodesParams.tryFrom f v = Except.error (ValidationError.new "Missing enrs param"))
  ∧ (∀ tv n ev, v.get "total" = some tv → tv.as_u64 = some n →
      v.get "enrs" = some ev → ev.as_array = Option.none →
      NodesParams.tryFrom f v = Except.error (ValidationError.new "Empty enrs param")) := by
  refine ⟨fun h1 => ?_, fun tv h1 h2 => ?_, fun tv n h1 h2 h3 => ?_,
    fun tv n ev h1 h2 h3 h4 => ?_⟩
  · simp [NodesParams.tryFrom, h1]
  · simp [NodesParams.tryFrom, h1, h2]
  · simp [NodesParams.tryFrom, h1, h2, h3]
  · simp [NodesParams.tryFrom, h1, h2, h3, h4]


/-- C3 witness. -/
theorem decode_nodes_params_error_order_witness :
    (NodesParams.tryFrom Except.ok (Value.obj [])
      = Except.error (ValidationError.new "Missing total param"))
  ∧ (NodesParams.tryFrom Except.ok (Value.obj [("total", Value.str "x")])
      = Except.error (ValidationError.new "Invalid total param"))
  ∧ (NodesParams.tryFrom Except.ok (Value.obj [("total", Value.num (Number.posInt 1))])
      = Except.error (ValidationError.new "Missing enrs param"))
  ∧ (NodesParams.tryFrom Except.ok
      (Value.obj [("total", Value.num (Number.posInt 1)), ("enrs", Value.str "no")])
      = Except.error (ValidationError.new "Empty enrs param")) :=
  ⟨(decode_nodes_params_error_order Except.ok (Value.obj [])).1 rfl,
   (decode_nodes_params_error_order Except.ok
      (Value.obj [("total", Value.str "x")])).2.1 (Value.str "x") rfl rfl,
   (decode_nodes_params_error_order Except.ok
      (Value.obj [("total", Value.num (Number.posInt 1))])).2.2.1
      (Value.num (Number.posInt 1)) 1 rfl rfl rfl,
   (decode_nodes_params_error_order Except.ok
      (Value.obj [("total", Value.num (Number.posInt 1)), ("enrs", Value.str "no")])).2.2.2
      (Value.num (Number.posInt 1)) 1 (Value.str "no") rfl rfl rfl rfl⟩

/-- C4: element conversion order and error propagation. -/
theorem enrs_conversion_first_error_wins {Enr : Type}
    (f : Value → Except ValidationError Enr) (v tv : Value) (t : Nat) (vs : List Value)
    (ht : v.get "total" = some tv) (htn : tv.as_u64 = some t)
    (he : v.get "enrs" = some (Value.arr vs)) :
    (∀ l₁ x l₂ err, vs = l₁ ++ x :: l₂ → (∀ y ∈ l₁, ∃ e, f y = Except.ok e) →
        f x = Except.error err → NodesParams.tryFrom f v = Except.error err)
  ∧ ((∀ y ∈ vs, ∃ e, f y = Except.ok e) →
      ∃ es, NodesParams.tryFrom f v = Except.ok ⟨t % 256, es⟩
        ∧ List.Forall₂ (fun y e => f y = Except.ok e) vs es) := by
  constructor
  · rintro l₁ x l₂ err rfl hok hx
    have hm := collectResults_first_error f l₁ x l₂ err hok hx
    simp [NodesParams.tryFrom, ht, htn, he, Value.as_array, hm]
  · intro hall
    obtain ⟨es, hes, hforall⟩ := collectResults_all_ok f vs hall
    exact ⟨es, by simp [NodesParams.tryFrom, ht, htn, he, Value.as_array, hes], hforall⟩

/-- C4 witness. -/
theorem enrs_conversion_first_error_wins_witness :
    NodesParams.tryFrom
      (fun x => match x with
        | Value.null => Except.error (ValidationError.new "enr fail")
        | y => Except.ok y)
      (Value.obj [("total", Value.num (Number.posInt 5)),
                  ("enrs", Value.arr [Value.bool true, Value.null])])
      = Except.error (ValidationError.new "enr fail") :=
  (enrs_conversion_first_error_wins
      (fun x => match x with
        | Value.null => Except.error (ValidationError.new "enr fail")
        | y => Except.ok y)
      (Value.obj [("total", Value.num (Number.posInt 5)),
                  ("enrs", Value.arr [Value.bool true, Value.null])])
      (Value.num (Number.posInt 5)) 5 [Value.bool true, Value.null]
      rfl rfl rfl).1
    [Value.bool true] Value.null [] (ValidationError.new "enr fail") rfl
    (by
      intro y hy
      rw [List.mem_singleton] at hy
      subst hy
      exact ⟨Value.bool true, rfl⟩)
    rfl

/-- C10: an empty enrs array is accepted. -/
theorem empty_enrs_accepted {Enr : Type}
    (f : Value → Except ValidationError Enr) (v tv : Value) (t : Nat)
    (ht : v.get "total" = some tv) (htn : tv.as_u64 = some t) (htr : t ≤ 255)
    (he : v.get "enrs" = some (Value.arr [])) :
    NodesParams.tryFrom f v = Except.ok ⟨t, []⟩ := by
  have hmod : t % 256 = t := Nat.mod_eq_of_lt (by omega)
  simp [NodesParams.tryFrom, ht, htn, he, Value.as_array, collectResults, hmod]

/-- C10 witness. -/
theorem empty_enrs_accepted_witness :
    NodesParams.tryFrom Except.ok
      (Value.obj [("total", Value.num (Number.posInt 7)), ("enrs", Value.arr [])])
      = Except.ok ⟨7, []⟩ :=
  empty_enrs_accepted Except.ok
    (Value.obj [("total", Value.num (Number.posInt 7)), ("enrs", Value.arr [])])
    (Value.num (Number.posInt 7)) 7 rfl rfl (by decide) rfl

/-- C1: code-bug evidence. With total equal to 256 the decoder does not
fail: the cast to u8 silently truncates 256 to 0 and the decode succeeds. -/
theorem nodes_params_total_256_truncated :
    NodesParams.tryFrom Except.ok
      (Value.obj [("total", Value.num (Number.posInt 256)), ("enrs", Value.arr [])])
      = Except.ok ⟨0, []⟩ := rfl


/-- C5: absent, null, array, and object parameters parse and round-trip,
with absent normalized to null. -/
theorem params_roundtrip (ov : Option Value)
    (h : ov = Option.none ∨ ov = some Value.null
      ∨ (∃ vs, ov = some (Value.arr vs)) ∨ (∃ fs, ov = some (Value.obj fs))) :
    ∃ p, deserializeParamsField ov = Except.ok p
      ∧ p.toValue = ov.getD Value.null := by
  rcases h with rfl | rfl | ⟨vs, rfl⟩ | ⟨fs, rfl⟩ <;> exact ⟨_, rfl, rfl⟩

/-- C5 witness. -/
theorem params_roundtrip_witness :
    ∃ p, deserializeParamsField (some (Value.arr [Value.bool true])) = Except.ok p
      ∧ p.toValue = (some (Value.arr [Value.bool true])).getD Value.null :=
  params_roundtrip (some (Value.arr [Value.bool true]))
    (Or.inr (Or.inr (Or.inl ⟨[Value.bool true], rfl⟩)))

/-- C6: bare strings, numbers, and booleans are rejected by the Params
deserializer. -/
theorem params_scalar_rejected (v : Value)
    (h : (∃ s, v = Value.str s) ∨ (∃ n, v = Value.num n) ∨ (∃ b, v = Value.bool b)) :
    Params.deserialize v
      = Except.error "data did not match any variant of untagged enum Params" := by
  rcases h with ⟨s, rfl⟩ | ⟨n, rfl⟩ | ⟨b, rfl⟩ <;> rfl

/-- C6 witness. -/
theorem params_scalar_rejected_witness :
    Params.deserialize (Value.str "hello")
      = Except.error "data did not match any variant of untagged enum Params" :=
  params_scalar_rejected (Value.str "hello") (Or.inl ⟨"hello", rfl⟩)

/-- C7: validation succeeds exactly when jsonrpc equals "2.0"; otherwise
the error is attributed to the jsonrpc field. -/
theorem validate_jsonrpc_iff (r : JsonRequest) :
    (r.validate = Except.ok () ↔ r.jsonrpc = "2.0")
  ∧ (r.jsonrpc ≠ "2.0" →
      r.validate
        = Except.error [("jsonrpc", ValidationError.new "Unsupported jsonrpc version")]) := by
  unfold JsonRequest.validate validate_jsonrpc_version
  by_cases hj : r.jsonrpc = "2.0" <;> simp [hj]

/-- C7 witness. -/
theorem validate_jsonrpc_iff_witness :
    ((JsonRequest.mk "2.0" Params.none "eth_blockNumber" 1).validate = Except.ok ())
  ∧ ((JsonRequest.mk "1.0" Params.none "eth_blockNumber" 1).validate
      = Except.error [("jsonrpc", ValidationError.new "Unsupported jsonrpc version")]) :=
  ⟨(validate_jsonrpc_iff (JsonRequest.mk "2.0" Params.none "eth_blockNumber" 1)).1.mpr rfl,
   (validate_jsonrpc_iff (JsonRequest.mk "1.0" Params.none "eth_blockNumber" 1)).2
     (by decide)⟩


/-- C8: an otherwise valid envelope without a params key parses with
parameters equal to the None variant. -/
theorem missing_params_defaults_to_none (fields : List (String × Value))
    (j m : String) (n : Nat)
    (hj : List.lookup "jsonrpc" fields = some (Value.str j))
    (hm : List.lookup "method" fields = some (Value.str m))
    (hid : List.lookup "id" fields = some (Value.num (Number.posInt n)))
    (hn : n ≤ U32_MAX)
    (hp : List.lookup "params" fields = Option.none) :
    parse_envelope (Value.obj fields) = Except.ok ⟨j, Params.none, m, n⟩ := by
  simp [parse_envelope, requiredString, requiredU32, deserializeParamsField,
    deserializeString, deserializeU32, default_params, hj, hm, hid, hn, hp]

/-- C8 witness. -/
theorem missing_params_defaults_to_none_witness :
    parse_envelope (Value.obj [("jsonrpc", Value.str "2.0"),
      ("method", Value.str "eth_blockNumber"), ("id", Value.num (Number.posInt 1))])
      = Except.ok ⟨"2.0", Params.none, "eth_blockNumber", 1⟩ :=
  missing_params_defaults_to_none
    [("jsonrpc", Value.str "2.0"), ("method", Value.str "eth_blockNumber"),
     ("id", Value.num (Number.posInt 1))]
    "2.0" "eth_blockNumber" 1 rfl rfl rfl (by decide) rfl

/-- C2 counterexample: a document with an unrecognized top-level field
parses successfully, refuting the strict-fields claim. -/
theorem unknown_field_accepted_cex :
    parse_envelope (Value.obj [("jsonrpc", Value.str "2.0"),
      ("method", Value.str "eth_blockNumber"), ("id", Value.num (Number.posInt 1)),
      ("extra", Value.bool true)])
      = Except.ok ⟨"2.0", Params.none, "eth_blockNumber", 1⟩ := rfl

/-- C2 amended: unrecognized top-level fields are ignored; a document
whose recognized fields are well-formed parses successfully even when it
contains extra fields. -/
theorem unknown_fields_ignored (fields : List (String × Value))
    (j m : String) (n : Nat) (p : Params)
    (hj : List.lookup "jsonrpc" fields = some (Value.str j))
    (hm : List.lookup "method" fields = some (Value.str m))
    (hid : List.lookup "id" fields = some (Value.num (Number.posInt n)))
    (hn : n ≤ U32_MAX)
    (hp : deserializeParamsField (List.lookup "params" fields) = Except.ok p)
    (hextra : ∃ kv ∈ fields,
      kv.1 ∉ (["jsonrpc", "params", "method", "id"] : List String)) :
    parse_envelope (Value.obj fields) = Except.ok ⟨j, p, m, n⟩ := by
  simp [parse_envelope, requiredString, requiredU32,
    deserializeString, deserializeU32, hj, hm, hid, hn, hp]

/-- C2 witness for the amended statement. -/
theorem unknown_fields_ignored_witness :
    parse_envelope (Value.obj [("jsonrpc", Value.str "2.0"),
      ("method", Value.str "eth_blockNumber"), ("id", Value.num (Number.posInt 1)),
      ("extra", Value.bool true)])
      = Except.ok ⟨"2.0", Params.none, "eth_blockNumber", 1⟩ :=
  unknown_fields_ignored
    [("jsonrpc", Value.str "2.0"), ("method", Value.str "eth_blockNumber"),
     ("id", Value.num (Number.posInt 1)), ("extra", Value.bool true)]
    "2.0" "eth_blockNumber" 1 Params.none rfl rfl rfl (by decide) rfl
    ⟨("extra", Value.bool true), by simp, by decide⟩


/-- Helper: a successful envelope parse pins down the deserialized id. -/
theorem parse_envelope_ok_id (fields : List (String × Value)) (r : JsonRequest)
    (h : parse_envelope (Value.obj fields) = Except.ok r) :
    requiredU32 fields "id" = Except.ok r.id := by
  simp only [parse_envelope] at h
  rcases h1 : requiredString fields "jsonrpc" with e | j
  · simp only [h1] at h
    exact absurd h (by simp)
  · simp only [h1] at h
    rcases h2 : deserializeParamsField (List.lookup "params" fields) with e | p
    · simp only [h2] at h
      exact absurd h (by simp)
    · simp only [h2] at h
      rcases h3 : requiredString fields "method" with e | m
      · simp only [h3] at h
        exact absurd h (by simp)
      · simp only [h3] at h
        rcases h4 : requiredU32 fields "id" with e | i
        · simp only [h4] at h
          exact absurd h (by simp)
        · simp only [h4] at h
          simp only [Except.ok.injEq] at h
          subst h
          rfl


/-- C9: the request id is bounded to a 32-bit unsigned integer; a
negative, fractional, or too-large id makes envelope parsing fail. -/
theorem id_out_of_range_rejected (fields : List (String × Value)) (v : Value)
    (hid : List.lookup "id" fields = some v)
    (h : (∃ i, v = Value.num (Number.negInt i))
      ∨ (∃ q, v = Value.num (Number.float q))
      ∨ (∃ n, U32_MAX < n ∧ v = Value.num (Number.posInt n))) :
    ∃ e, parse_envelope (Value.obj fields) = Except.error e := by
  rcases hpe : parse_envelope (Value.obj fields) with e | r
  · exact ⟨e, rfl⟩
  · have hd := parse_envelope_ok_id fields r hpe
    unfold requiredU32 at hd
    rw [hid] at hd
    rcases h with ⟨i, rfl⟩ | ⟨q, rfl⟩ | ⟨n, hn, rfl⟩
    · simp [deserializeU32] at hd
    · simp [deserializeU32] at hd
    · have hlt : ¬ n ≤ U32_MAX := by omega
      simp [deserializeU32, hlt] at hd

/-- C9 witness. -/
theorem id_out_of_range_rejected_witness :
    ∃ e, parse_envelope (Value.obj [("jsonrpc", Value.str "2.0"),
      ("method", Value.str "eth_blockNumber"),
      ("id", Value.num (Number.posInt 4294967296))]) = Except.error e :=
  id_out_of_range_rejected
    [("jsonrpc", Value.str "2.0"), ("method", Value.str "eth_blockNumber"),
     ("id", Value.num (Number.posInt 4294967296))]
    (Value.num (Number.posInt 4294967296)) rfl
    (Or.inr (Or.inr ⟨4294967296, by decide, rfl⟩))

end Trin
